import Mathlib

/-!
Verification of the FlexyPe inventory reservation engine.

This file is a shallow embedding of the core of the FlexyPe backend
(`backend/app/services/reservation_service.py`, `backend/app/core/redis_client.py`,
`backend/app/api/middleware/rate_limiter.py`, `backend/app/api/routes/checkout.py`)
into Lean 4, together with theorems settling the specification's claims.

Modelling conventions:
* The Redis keyspace is modelled as a record of partial maps, one per key
  namespace (`inventory:`, `reservation:`, `idempotency:`, `ratelimit:`,
  plus the `expiring_reservations` sorted set as a map from id to score).
  Key strings keep the source's prefixing helpers.
* Redis integers are `Int` (signed; `DECRBY`/`INCRBY`/`SET` can produce any
  integer). Timestamps and scores are `Int` unix seconds; `datetime` values
  round-trip through ISO strings unchanged, so they are modelled by their
  timestamp directly.
* JSON blobs (`ReservationData`, the idempotency record) are stored as the
  structured value itself: serialisation in the source is an injective
  encode/decode pair and is not observable.
* Nondeterministic inputs of the Python code (`uuid` fresh suffix,
  `datetime.utcnow`, `time.time`) are explicit parameters.
* Each service call is a function from state to result and new state; the
  claims are sequential-semantics claims about these functions (the Lua
  scripts and the WATCH/MULTI/EXEC block execute atomically in Redis, so a
  single call is one indivisible step of the concurrent system).
* `reserveInventory` takes a fault-injection flag `ledgerWriteFails`
  modelling the possibility that the `redis.set`/`zadd` ledger write after
  the stock decrement raises; the source has no try/except around it.
-/

namespace FlexyPe

/-- Settings.RESERVATION_TTL_SECONDS (config.py). -/
def RESERVATION_TTL_SECONDS : Int := 300

/-- Model of `ReservationData` (schemas.py): the reservation blob stored in Redis. -/
structure ReservationData where
  user_id : String
  sku : String
  quantity : Int
  created_at : Int
  deriving Repr, DecidableEq

/-- The response payload cached under an idempotency key
(reservation_service.py, `reserve_inventory`, the `response` dict). -/
structure IdemRecord where
  reservation_id : String
  sku : String
  quantity : Int
  expires_at : Int
  deriving Repr, DecidableEq

/-- The Redis state visible to the reservation service and the rate limiter. -/
structure St where
  /-- Namespace `inventory:<sku>`: the per-SKU available counter. -/
  inventory : String → Option Int
  /-- Namespace `reservation:<id>`: the reservation blobs. -/
  reservations : String → Option ReservationData
  /-- the `expiring_reservations` sorted set: member id → score. -/
  expiring : String → Option Int
  /-- Namespace `idempotency:<key>`: cached reserve responses. -/
  idempotency : String → Option IdemRecord
  /-- Namespace `ratelimit:<principal>:<endpoint>`: fixed-window counters. -/
  rate : String → Option Int
  /-- TTL (as `redis.ttl` would report it) of the rate-limit keys. -/
  rateTtl : String → Int

/-- Point update of a partial map (a Redis SET/DEL at one key). -/
def upd {α : Type} (f : String → Option α) (k : String) (v : Option α) :
    String → Option α :=
  fun x => if x = k then v else f x

/-- Point update of a total map. -/
def updT (f : String → Int) (k : String) (v : Int) : String → Int :=
  fun x => if x = k then v else f x

/-- Model of `_get_inventory_key` (reservation_service.py). -/
def inventoryKey (sku : String) : String := "inventory:" ++ sku

/-- Model of `_get_reservation_key` (reservation_service.py). -/
def reservationKey (rid : String) : String := "reservation:" ++ rid

/-- Model of `_get_idempotency_key` (reservation_service.py). -/
def idempotencyKey (k : String) : String := "idempotency:" ++ k

/-- Model of `RESERVE_INVENTORY_SCRIPT` (redis_client.py): atomically read the
counter (missing key reads as 0), and if `available >= quantity` decrement
by `quantity` and return success, else leave it unchanged and fail. -/
def reserveScript (st : St) (key : String) (quantity : Int) : Bool × St :=
  let available := (st.inventory key).getD 0
  if quantity ≤ available then
    (true, { st with inventory := upd st.inventory key (some (available - quantity)) })
  else
    (false, st)

/-- Model of `RESTORE_INVENTORY_SCRIPT` (redis_client.py): atomically `INCRBY`
the counter (missing key treated as 0). -/
def restoreScript (st : St) (key : String) (quantity : Int) : St :=
  { st with inventory := upd st.inventory key (some ((st.inventory key).getD 0 + quantity)) }

/-- Observable events of one reserve call, used to state claims about
which effects a code path performs. -/
inductive Ev where
  /-- the idempotency cache returned a prior result -/
  | cacheHit
  /-- the RESERVE_INVENTORY_SCRIPT was executed (either outcome) -/
  | scriptRun
  /-- the script decremented the stock counter -/
  | decremented
  /-- the reservation blob and expiry-index entry were written -/
  | ledgerWrite
  /-- the idempotency record was written -/
  | idemWrite
  deriving Repr, DecidableEq

/-- Errors surfaced by `reserve_inventory`. -/
inductive ReserveErr where
  /-- Raised as `InsufficientInventoryError(available)` -/
  | insufficient (available : Int)
  /-- the uncaught exception of a failing `redis.set`/`zadd` ledger write -/
  | ledgerWriteFailed
  deriving Repr, DecidableEq

/-- Model of `ReservationService.reserve_inventory` (reservation_service.py).

Parameters beyond the Python signature: `now` is `datetime.utcnow()` as a
unix timestamp, `fresh` is the uuid hex suffix minted for the reservation
id, and `ledgerWriteFails` injects a failure of the step-4 ledger write
(`redis.set` / `redis.zadd`), which the source does not guard.

Python truthiness: `if idempotency_key:` treats the empty string like
`None`, hence the `k ≠ ""` guards. -/
def reserveInventory (st : St) (sku : String) (quantity : Int) (userId : String)
    (idemKey : Option String) (now : Int) (fresh : String)
    (ledgerWriteFails : Bool) :
    Except ReserveErr (String × Int) × St × List Ev :=
  let cached : Option IdemRecord :=
    match idemKey with
    | some k => if k ≠ "" then st.idempotency (idempotencyKey k) else none
    | none => none
  match cached with
  | some rec0 => (.ok (rec0.reservation_id, rec0.expires_at), st, [.cacheHit])
  | none =>
    let key := inventoryKey sku
    let (success, st1) := reserveScript st key quantity
    if success then
      let rid := "rsv_" ++ fresh
      if ledgerWriteFails then
        (.error .ledgerWriteFailed, st1, [.scriptRun, .decremented])
      else
        let expiresAt := now + RESERVATION_TTL_SECONDS
        let rdata : ReservationData :=
          { user_id := userId, sku := sku, quantity := quantity, created_at := now }
        let st2 : St :=
          { st1 with
              reservations := upd st1.reservations (reservationKey rid) (some rdata),
              expiring := upd st1.expiring rid (some expiresAt) }
        match idemKey with
        | some k =>
          if k ≠ "" then
            let rec1 : IdemRecord :=
              { reservation_id := rid, sku := sku, quantity := quantity,
                expires_at := expiresAt }
            let st3 : St :=
              { st2 with idempotency := upd st2.idempotency (idempotencyKey k) (some rec1) }
            (.ok (rid, expiresAt), st3, [.scriptRun, .decremented, .ledgerWrite, .idemWrite])
          else
            (.ok (rid, expiresAt), st2, [.scriptRun, .decremented, .ledgerWrite])
        | none =>
          (.ok (rid, expiresAt), st2, [.scriptRun, .decremented, .ledgerWrite])
    else
      let available := (st1.inventory key).getD 0
      (.error (.insufficient available), st1, [.scriptRun])

/-- Errors raised by `confirm_reservation` (as distinct `ValueError`
messages in the source). -/
inductive ConfirmErr where
  /-- Raised as `ValueError("Reservation not found")` -/
  | notFound
  /-- Raised as `ValueError("Reservation expired or invalid")`: the expiry-index
  score is missing, or is `0` (Python `if not expiry_score` treats the
  float `0.0` as falsy) -/
  | expiredOrInvalid
  /-- Raised as `ValueError("Reservation expired")` -/
  | expired
  /-- Raised as `ValueError("This reservation belongs to another user")` -/
  | wrongOwner
  deriving Repr, DecidableEq

/-- Whether a `confirm_reservation` error message contains "expired"
(checkout.py routes both to the 404 reservation-expired response,
together with "not found"). -/
def ConfirmErr.isExpiredKind : ConfirmErr → Bool
  | .expiredOrInvalid => true
  | .expired => true
  | _ => false

/-- Model of `ReservationService.confirm_reservation` (reservation_service.py).

`now` is `time.time()`. On any error the WATCH/MULTI/EXEC pipeline is
reset without executing, so the state is returned unchanged; on success
the transaction deletes the blob and removes the expiry-index entry. -/
def confirmReservation (st : St) (rid uid : String) (gracePeriodSeconds now : Int) :
    Except ConfirmErr ReservationData × St :=
  match st.reservations (reservationKey rid) with
  | none => (.error .notFound, st)
  | some r =>
    match st.expiring rid with
    | none => (.error .expiredOrInvalid, st)
    | some score =>
      if score = 0 then (.error .expiredOrInvalid, st)
      else if score + gracePeriodSeconds < now then (.error .expired, st)
      else if r.user_id ≠ uid then (.error .wrongOwner, st)
      else
        (.ok r,
         { st with
             reservations := upd st.reservations (reservationKey rid) none,
             expiring := upd st.expiring rid none })

/-- Model of `ReservationService.release_reservation` (reservation_service.py):
if the blob is already gone, defensively remove the index entry and
return false; otherwise restore the inventory, delete the blob and the
index entry, and return true. -/
def releaseReservation (st : St) (rid : String) : Bool × St :=
  match st.reservations (reservationKey rid) with
  | none => (false, { st with expiring := upd st.expiring rid none })
  | some r =>
    let st1 := restoreScript st (inventoryKey r.sku) r.quantity
    (true,
     { st1 with
         reservations := upd st1.reservations (reservationKey rid) none,
         expiring := upd st1.expiring rid none })

/-- The `ValueError` of `cancel_reservation` on an ownership mismatch. -/
inductive CancelErr where
  | wrongOwner
  deriving Repr, DecidableEq

/-- Model of `ReservationService.cancel_reservation` (reservation_service.py):
absent blob returns false; ownership mismatch raises; otherwise the
release path runs. -/
def cancelReservation (st : St) (rid uid : String) : Except CancelErr Bool × St :=
  match st.reservations (reservationKey rid) with
  | none => (.ok false, st)
  | some r =>
    if r.user_id ≠ uid then (.error .wrongOwner, st)
    else
      let (released, st1) := releaseReservation st rid
      (.ok released, st1)

/-- Model of `ReservationService.set_inventory` (reservation_service.py):
`redis.set` of the raw quantity, with no validation. -/
def setInventory (st : St) (sku : String) (quantity : Int) : St :=
  { st with inventory := upd st.inventory (inventoryKey sku) (some quantity) }

/-! ## Rate limiter (rate_limiter.py) -/

/-- The key built by the `rate_limit` decorator. -/
def rateLimitKey (userId endpoint : String) : String :=
  "ratelimit:" ++ userId ++ ":" ++ endpoint

/-- Outcome of the `rate_limit` decorator's check. -/
inductive RateResult where
  /-- the wrapped handler runs -/
  | allowed
  /-- HTTP 429 with the given `retry_after` -/
  | rejected (retryAfter : Int)
  deriving Repr, DecidableEq

/-- The check performed by the `rate_limit` decorator (rate_limiter.py)
when both `request` and `current_user` are present: first request in a
window creates the counter with TTL = window; at or above the cap it
rejects with `retry_after = ttl if ttl > 0 else window_seconds`;
otherwise it increments. -/
def rateLimit (st : St) (userId endpoint : String) (maxRequests windowSeconds : Int) :
    RateResult × St :=
  let key := rateLimitKey userId endpoint
  match st.rate key with
  | none =>
    (.allowed,
     { st with rate := upd st.rate key (some 1),
               rateTtl := updT st.rateTtl key windowSeconds })
  | some currentCount =>
    if maxRequests ≤ currentCount then
      let ttl := st.rateTtl key
      (.rejected (if 0 < ttl then ttl else windowSeconds), st)
    else
      (.allowed, { st with rate := upd st.rate key (some (currentCount + 1)) })

/-- Errors surfaced by the `/reserve` route. -/
inductive EndpointErr where
  | rateLimited (retryAfter : Int)
  | insufficient (available : Int)
  | internal
  deriving Repr, DecidableEq

/-- The `/api/v1/inventory/reserve` route (inventory.py) as decorated by
`@rate_limit()`: the limiter runs before the handler, which runs
`reserve_inventory` (and hence before the idempotency check and any
stock mutation). -/
def reserveEndpoint (st : St) (userId sku : String) (quantity : Int)
    (idemKey : Option String) (now : Int) (fresh : String)
    (ledgerWriteFails : Bool) (maxRequests windowSeconds : Int) :
    Except EndpointErr (String × Int) × St × List Ev :=
  match rateLimit st userId "/api/v1/inventory/reserve" maxRequests windowSeconds with
  | (.rejected retryAfter, st1) => (.error (.rateLimited retryAfter), st1, [])
  | (.allowed, st1) =>
    match reserveInventory st1 sku quantity userId idemKey now fresh ledgerWriteFails with
    | (.ok res, st2, evs) => (.ok res, st2, evs)
    | (.error (.insufficient a), st2, evs) => (.error (.insufficient a), st2, evs)
    | (.error .ledgerWriteFailed, st2, evs) => (.error .internal, st2, evs)

/-! ## Order promoter (checkout.py) -/

/-- An `orders` row (database.py / checkout.py). `total_amount` is in
cents (`Decimal("29.99") * quantity` = `2999 * quantity` cents). -/
structure Order where
  order_id : String
  user_id : String
  status : String
  total_amount : Int
  created_at : Int
  deriving Repr, DecidableEq

/-- An `order_items` row. `price_per_unit` in cents. -/
structure OrderItem where
  order_id : String
  sku : String
  quantity : Int
  price_per_unit : Int
  deriving Repr, DecidableEq

/-- An `audit_log` row (the `details` map is omitted: derived data). -/
structure AuditRow where
  event_type : String
  user_id : String
  sku : String
  reservation_id : String
  timestamp : Int
  deriving Repr, DecidableEq

/-- The relational store touched by the checkout route. -/
structure Db where
  orders : List Order
  order_items : List OrderItem
  audit_log : List AuditRow
  deriving Repr, DecidableEq

/-- The fixed `Decimal("29.99")` per-unit price, in cents. -/
def priceCents : Int := 2999

/-- Set the status of the order with the given id (the
`db.query(Order).filter(...).first()` + assignment + commit pattern). -/
def setOrderStatus (db : Db) (orderId status : String) : Db :=
  { db with
      orders := db.orders.map
        (fun o => if o.order_id = orderId then { o with status := status } else o) }

/-- Errors surfaced by the `/checkout/confirm` route. -/
inductive CheckoutErr where
  /-- HTTP 404 reservation-expired (raised for "not found" and "expired"
  messages alike) -/
  | http404
  /-- HTTP 403 forbidden ("another user") -/
  | http403
  /-- HTTP 500 -/
  | http500
  deriving Repr, DecidableEq

/-- Model of `confirm_checkout` (checkout.py), pending-first dual write:
read the blob without consuming; if present insert a pending order;
run `confirm_reservation` (grace default 5); on failure mark the pending
order failed (when one was created) and map the message to 404/403; on
success set the order confirmed, insert the order item and the audit row.

`orderFresh` is the uuid hex suffix of the minted order id; `now` stands
for `datetime.utcnow()`. -/
def confirmCheckout (st : St) (db : Db) (rid uid : String) (now : Int)
    (orderFresh : String) :
    Except CheckoutErr (String × Int) × St × Db :=
  let orderId := "ord_" ++ orderFresh
  let reservationData := st.reservations (reservationKey rid)
  let db1 :=
    match reservationData with
    | none => db
    | some r =>
      { db with
          orders := db.orders ++
            [{ order_id := orderId, user_id := uid, status := "pending",
               total_amount := priceCents * r.quantity, created_at := now }] }
  match confirmReservation st rid uid 5 now with
  | (.error e, st1) =>
    let db2 :=
      match reservationData with
      | none => db1
      | some _ => setOrderStatus db1 orderId "failed"
    match e with
    | .notFound => (.error .http404, st1, db2)
    | .expiredOrInvalid => (.error .http404, st1, db2)
    | .expired => (.error .http404, st1, db2)
    | .wrongOwner => (.error .http403, st1, db2)
  | (.ok r, st1) =>
    if db1.orders.any (fun o => o.order_id = orderId) then
      let db2 := setOrderStatus db1 orderId "confirmed"
      let db3 :=
        { db2 with
            order_items := db2.order_items ++
              [{ order_id := orderId, sku := r.sku, quantity := r.quantity,
                 price_per_unit := priceCents }],
            audit_log := db2.audit_log ++
              [{ event_type := "confirm", user_id := uid, sku := r.sku,
                 reservation_id := rid, timestamp := now }] }
      (.ok (orderId, priceCents * r.quantity), st1, db3)
    else
      (.error .http500, st1, db1)

/-! ## Operation sequences (for the temporal claim) -/

/-- One terminal-capable operation on the reservation ledger. -/
inductive Op where
  | confirm (rid uid : String) (grace now : Int)
  | cancel (rid uid : String)
  | release (rid : String)
  deriving Repr, DecidableEq

/-- Terminal events: a reservation being consumed (confirm) or released
with stock restoration (cancel/release). -/
inductive REv where
  | consumed (rid : String)
  | released (rid : String)
  deriving Repr, DecidableEq

/-- Run one operation, recording the terminal event it performs, if any. -/
def applyOp (st : St) : Op → St × List REv
  | .confirm rid uid grace now =>
    match confirmReservation st rid uid grace now with
    | (.ok _, st1) => (st1, [.consumed rid])
    | (.error _, st1) => (st1, [])
  | .cancel rid uid =>
    match cancelReservation st rid uid with
    | (.ok true, st1) => (st1, [.released rid])
    | (.ok false, st1) => (st1, [])
    | (.error _, st1) => (st1, [])
  | .release rid =>
    match releaseReservation st rid with
    | (true, st1) => (st1, [.released rid])
    | (false, st1) => (st1, [])

/-- Run a sequence of operations, concatenating the terminal events. -/
def runOps (st : St) : List Op → St × List REv
  | [] => (st, [])
  | op :: ops =>
    let (st1, evs1) := applyOp st op
    let (st2, evs2) := runOps st1 ops
    (st2, evs1 ++ evs2)

/-- Whether a terminal event concerns the given reservation id. -/
def isTerminalFor (rid : String) : REv → Bool
  | .consumed r => r = rid
  | .released r => r = rid

/-- Number of terminal events (consume or release) for a reservation id. -/
def termCount (rid : String) (evs : List REv) : Nat :=
  (evs.filter (isTerminalFor rid)).length

/-! ## Predicates used by the theorems -/

/-- The idempotency cache does not hold the request's key (also satisfied
when no key, or the empty-string key, is supplied, which the source's
`if idempotency_key:` truthiness treats as no key). -/
def idemMiss (st : St) (idemKey : Option String) : Prop :=
  ∀ k, idemKey = some k → k ≠ "" → st.idempotency (idempotencyKey k) = none

/-- All stock counters read non-negative and every stored reservation blob
carries a non-negative quantity (the reserve route's schema enforces
`quantity ∈ [1, 5]`, so blobs written through the API satisfy this). -/
def NonNeg (st : St) : Prop :=
  (∀ key, 0 ≤ (st.inventory key).getD 0) ∧
  (∀ key r, st.reservations key = some r → 0 ≤ r.quantity)

/-! ## Concrete states for witnesses and counterexamples -/

/-- A state with 5 units of SKU "A" and everything else empty. -/
def stA : St :=
  { inventory := fun k => if k = "inventory:A" then some 5 else none,
    reservations := fun _ => none,
    expiring := fun _ => none,
    idempotency := fun _ => none,
    rate := fun _ => none,
    rateTtl := fun _ => 0 }

/-- A sample reservation blob: user "u1" holding 2 units of "A". -/
def rA : ReservationData :=
  { user_id := "u1", sku := "A", quantity := 2, created_at := 100 }

/-- State `stA` plus a live reservation "r1" for `rA` expiring at score 400. -/
def stB : St :=
  { stA with
      reservations := upd stA.reservations (reservationKey "r1") (some rA),
      expiring := upd stA.expiring "r1" (some 400) }

/-- State `stA` plus a rate-limit counter at the cap (10) with TTL 30 for user
"u" on the reserve endpoint. -/
def stC : St :=
  { stA with
      rate := upd stA.rate (rateLimitKey "u" "/api/v1/inventory/reserve") (some 10),
      rateTtl := updT stA.rateTtl (rateLimitKey "u" "/api/v1/inventory/reserve") 30 }

/-- An empty relational store. -/
def db0 : Db := { orders := [], order_items := [], audit_log := [] }

/-! ## Helper lemmas -/

theorem upd_same {α : Type} (f : String → Option α) (k : String) (v : Option α) :
    upd f k v k = v := by
  simp [upd]

theorem upd_other {α : Type} (f : String → Option α) {k x : String} (v : Option α)
    (h : x ≠ k) : upd f k v x = f x := by
  simp [upd, h]

theorem strAppendLeftCancel {c a b : String} (h : c ++ a = c ++ b) : a = b := by
  have hd : (c ++ a).data = (c ++ b).data := congrArg String.data h
  simp [String.data_append] at hd
  exact String.ext hd

theorem reservationKey_inj {a b : String} (h : reservationKey a = reservationKey b) :
    a = b :=
  strAppendLeftCancel h

/-- Characterisation: a cache hit returns the recorded result verbatim,
leaves the state untouched, and performs only the cache lookup. -/
theorem reserve_cacheHit_eq (st : St) (sku uid k fresh : String) (q now : Int)
    (lf : Bool) (rec0 : IdemRecord) (hk : k ≠ "")
    (hc : st.idempotency (idempotencyKey k) = some rec0) :
    reserveInventory st sku q uid (some k) now fresh lf =
      (.ok (rec0.reservation_id, rec0.expires_at), st, [.cacheHit]) := by
  simp [reserveInventory, hk, hc]

/-- Characterisation: on a cache miss with insufficient stock, the reserve
fails with the current available count and changes nothing. -/
theorem reserve_insufficient_eq (st : St) (sku uid fresh : String)
    (q now : Int) (idemKey : Option String) (lf : Bool)
    (hm : idemMiss st idemKey)
    (hlt : (st.inventory (inventoryKey sku)).getD 0 < q) :
    reserveInventory st sku q uid idemKey now fresh lf =
      (.error (.insufficient ((st.inventory (inventoryKey sku)).getD 0)), st,
       [.scriptRun]) := by
  have hscript : reserveScript st (inventoryKey sku) q = (false, st) := by
    simp [reserveScript, not_le.mpr hlt]
  cases idemKey with
  | none => simp [reserveInventory, hscript, not_le.mpr hlt]
  | some k =>
    by_cases hk : k = ""
    · subst hk
      simp [reserveInventory, hscript, not_le.mpr hlt]
    · have hc := hm k rfl hk
      simp [reserveInventory, hk, hc, hscript, not_le.mpr hlt]

/-- Characterisation: on a cache miss with sufficient stock and a failing
ledger write, the error surfaces with the stock already decremented and
nothing else written (the source has no compensation). -/
theorem reserve_ledgerFail_eq (st : St) (sku uid fresh : String)
    (q now : Int) (idemKey : Option String)
    (hm : idemMiss st idemKey)
    (hle : q ≤ (st.inventory (inventoryKey sku)).getD 0) :
    reserveInventory st sku q uid idemKey now fresh true =
      (.error .ledgerWriteFailed,
       { st with inventory := (upd st.inventory (inventoryKey sku)
           (some ((st.inventory (inventoryKey sku)).getD 0 - q))) },
       [.scriptRun, .decremented]) := by
  cases idemKey with
  | none => simp [reserveInventory, reserveScript, hle]
  | some k =>
    by_cases hk : k = ""
    · subst hk
      simp [reserveInventory, reserveScript, hle]
    · have hc := hm k rfl hk
      simp [reserveInventory, hk, hc, reserveScript, hle]

/-- Characterisation: a successful reserve without an idempotency key
decrements the stock and writes the blob and the index entry. -/
theorem reserve_success_none_eq (st : St) (sku uid fresh : String) (q now : Int)
    (hle : q ≤ (st.inventory (inventoryKey sku)).getD 0) :
    reserveInventory st sku q uid none now fresh false =
      (.ok ("rsv_" ++ fresh, now + RESERVATION_TTL_SECONDS),
       { st with
           inventory := (upd st.inventory (inventoryKey sku)
             (some ((st.inventory (inventoryKey sku)).getD 0 - q))),
           reservations := (upd st.reservations (reservationKey ("rsv_" ++ fresh))
             (some { user_id := uid, sku := sku, quantity := q, created_at := now })),
           expiring := (upd st.expiring ("rsv_" ++ fresh)
             (some (now + RESERVATION_TTL_SECONDS))) },
       [.scriptRun, .decremented, .ledgerWrite]) := by
  simp [reserveInventory, reserveScript, hle]

/-- Characterisation: a successful reserve with a fresh idempotency key
additionally records the response under the key. -/
theorem reserve_success_some_eq (st : St) (sku uid k fresh : String) (q now : Int)
    (hk : k ≠ "") (hc : st.idempotency (idempotencyKey k) = none)
    (hle : q ≤ (st.inventory (inventoryKey sku)).getD 0) :
    reserveInventory st sku q uid (some k) now fresh false =
      (.ok ("rsv_" ++ fresh, now + RESERVATION_TTL_SECONDS),
       { st with
           inventory := (upd st.inventory (inventoryKey sku)
             (some ((st.inventory (inventoryKey sku)).getD 0 - q))),
           reservations := (upd st.reservations (reservationKey ("rsv_" ++ fresh))
             (some { user_id := uid, sku := sku, quantity := q, created_at := now })),
           expiring := (upd st.expiring ("rsv_" ++ fresh)
             (some (now + RESERVATION_TTL_SECONDS))),
           idempotency := (upd st.idempotency (idempotencyKey k)
             (some { reservation_id := "rsv_" ++ fresh, sku := sku, quantity := q,
                     expires_at := now + RESERVATION_TTL_SECONDS })) },
       [.scriptRun, .decremented, .ledgerWrite, .idemWrite]) := by
  simp [reserveInventory, hk, hc, reserveScript, hle]

/-- Characterisation: confirming a reservation with no ledger blob fails
with not-found and changes nothing. -/
theorem confirm_notFound_eq (st : St) (rid uid : String) (g n : Int)
    (hb : st.reservations (reservationKey rid) = none) :
    confirmReservation st rid uid g n = (.error .notFound, st) := by
  simp [confirmReservation, hb]

/-- Characterisation: a live blob whose expiry-index entry is missing
fails with the expired-or-invalid error and changes nothing. -/
theorem confirm_scoreMissing_eq (st : St) (rid uid : String) (g n : Int)
    (r : ReservationData) (hb : st.reservations (reservationKey rid) = some r)
    (hs : st.expiring rid = none) :
    confirmReservation st rid uid g n = (.error .expiredOrInvalid, st) := by
  simp [confirmReservation, hb, hs]

/-- Characterisation: a zero expiry score is treated as missing (Python
falsy `0.0`) and fails with the expired-or-invalid error. -/
theorem confirm_scoreZero_eq (st : St) (rid uid : String) (g n : Int)
    (r : ReservationData) (hb : st.reservations (reservationKey rid) = some r)
    (hs : st.expiring rid = some 0) :
    confirmReservation st rid uid g n = (.error .expiredOrInvalid, st) := by
  simp [confirmReservation, hb, hs]

/-- Characterisation: a reservation past its score plus grace fails with
the expired error and changes nothing. -/
theorem confirm_expired_eq (st : St) (rid uid : String) (g n : Int)
    (r : ReservationData) (score : Int)
    (hb : st.reservations (reservationKey rid) = some r)
    (hs : st.expiring rid = some score) (h0 : score ≠ 0)
    (hexp : score + g < n) :
    confirmReservation st rid uid g n = (.error .expired, st) := by
  simp [confirmReservation, hb, hs, h0, hexp]

/-- Characterisation: a live, unexpired reservation held by a different
user fails with the wrong-owner error and changes nothing. -/
theorem confirm_wrongOwner_eq (st : St) (rid uid : String) (g n : Int)
    (r : ReservationData) (score : Int)
    (hb : st.reservations (reservationKey rid) = some r)
    (hs : st.expiring rid = some score) (h0 : score ≠ 0)
    (hexp : ¬ score + g < n) (howner : r.user_id ≠ uid) :
    confirmReservation st rid uid g n = (.error .wrongOwner, st) := by
  simp [confirmReservation, hb, hs, h0, hexp, howner]

/-- Characterisation: a live, unexpired reservation held by the caller is
consumed: both the blob and the index entry are removed, the prior blob
is returned, and the stock counter is not touched. -/
theorem confirm_success_eq (st : St) (rid uid : String) (g n : Int)
    (r : ReservationData) (score : Int)
    (hb : st.reservations (reservationKey rid) = some r)
    (hs : st.expiring rid = some score) (h0 : score ≠ 0)
    (hexp : ¬ score + g < n) (howner : r.user_id = uid) :
    confirmReservation st rid uid g n =
      (.ok r,
       { st with
           reservations := upd st.reservations (reservationKey rid) none,
           expiring := upd st.expiring rid none }) := by
  simp [confirmReservation, hb, hs, h0, hexp, howner]

/-- Characterisation: any failing confirm leaves the state unchanged. -/
theorem confirm_error_frame (st : St) (rid uid : String) (g n : Int)
    (e : ConfirmErr) (h : (confirmReservation st rid uid g n).1 = .error e) :
    (confirmReservation st rid uid g n).2 = st := by
  cases hb : st.reservations (reservationKey rid) with
  | none => simp [confirmReservation, hb]
  | some r =>
    cases hs : st.expiring rid with
    | none => simp [confirmReservation, hb, hs]
    | some score =>
      by_cases h0 : score = 0
      · simp [confirmReservation, hb, hs, h0]
      · by_cases hexp : score + g < n
        · simp [confirmReservation, hb, hs, h0, hexp]
        · by_cases howner : r.user_id = uid
          · simp [confirmReservation, hb, hs, h0, hexp, howner] at h
          · simp [confirmReservation, hb, hs, h0, hexp, howner]

/-- Characterisation: releasing an already-gone reservation only clears
the index entry and reports false. -/
theorem release_gone_eq (st : St) (rid : String)
    (hb : st.reservations (reservationKey rid) = none) :
    releaseReservation st rid =
      (false, { st with expiring := upd st.expiring rid none }) := by
  simp [releaseReservation, hb]

/-- Characterisation: releasing a live reservation restores its quantity
to its SKU's counter and removes the blob and the index entry. -/
theorem release_live_eq (st : St) (rid : String) (r : ReservationData)
    (hb : st.reservations (reservationKey rid) = some r) :
    releaseReservation st rid =
      (true,
       { st with
           inventory := (upd st.inventory (inventoryKey r.sku)
             (some ((st.inventory (inventoryKey r.sku)).getD 0 + r.quantity))),
           reservations := upd st.reservations (reservationKey rid) none,
           expiring := upd st.expiring rid none }) := by
  simp [releaseReservation, hb, restoreScript]

/-- Characterisation: cancelling an absent reservation returns false and
changes nothing. -/
theorem cancel_gone_eq (st : St) (rid uid : String)
    (hb : st.reservations (reservationKey rid) = none) :
    cancelReservation st rid uid = (.ok false, st) := by
  simp [cancelReservation, hb]

/-- Characterisation: cancelling another user's reservation fails with
wrong-owner and changes nothing (no restore, no removal). -/
theorem cancel_wrongOwner_eq (st : St) (rid uid : String) (r : ReservationData)
    (hb : st.reservations (reservationKey rid) = some r)
    (howner : r.user_id ≠ uid) :
    cancelReservation st rid uid = (.error .wrongOwner, st) := by
  simp [cancelReservation, hb, howner]

/-- Characterisation: cancelling one's own live reservation restores the
stock, removes the blob and the index entry, and returns true. -/
theorem cancel_ok_eq (st : St) (rid uid : String) (r : ReservationData)
    (hb : st.reservations (reservationKey rid) = some r)
    (howner : r.user_id = uid) :
    cancelReservation st rid uid =
      (.ok true,
       { st with
           inventory := (upd st.inventory (inventoryKey r.sku)
             (some ((st.inventory (inventoryKey r.sku)).getD 0 + r.quantity))),
           reservations := upd st.reservations (reservationKey rid) none,
           expiring := upd st.expiring rid none }) := by
  simp [cancelReservation, hb, howner, releaseReservation, restoreScript]

/-- Characterisation: the empty-string idempotency key is falsy in Python
and behaves like no key on the success path. -/
theorem reserve_success_emptyKey_eq (st : St) (sku uid fresh : String) (q now : Int)
    (hle : q ≤ (st.inventory (inventoryKey sku)).getD 0) :
    reserveInventory st sku q uid (some "") now fresh false =
      (.ok ("rsv_" ++ fresh, now + RESERVATION_TTL_SECONDS),
       { st with
           inventory := (upd st.inventory (inventoryKey sku)
             (some ((st.inventory (inventoryKey sku)).getD 0 - q))),
           reservations := (upd st.reservations (reservationKey ("rsv_" ++ fresh))
             (some { user_id := uid, sku := sku, quantity := q, created_at := now })),
           expiring := (upd st.expiring ("rsv_" ++ fresh)
             (some (now + RESERVATION_TTL_SECONDS))) },
       [.scriptRun, .decremented, .ledgerWrite]) := by
  simp [reserveInventory, reserveScript, hle]

/-- An absent idempotency key always misses the cache. -/
theorem idemMiss_none (st : St) : idemMiss st none :=
  fun _ hk _ => nomatch hk

/-- A key not recorded in the cache misses it. -/
theorem idemMiss_some (st : St) {k : String}
    (hc : st.idempotency (idempotencyKey k) = none) : idemMiss st (some k) := by
  intro k2 hk2 _
  injection hk2 with h2
  rw [← h2]
  exact hc

/-! ## Claims -/

/-- C1: the RESERVE_INVENTORY_SCRIPT is an atomic check-and-decrement
over the per-SKU counter: when the available value v satisfies n ≤ v it
sets the counter to v − n and reports success; otherwise it leaves the
counter unchanged and reports insufficiency, and `reserve_inventory`
then raises `InsufficientInventoryError` carrying the current available
count, with the whole state unchanged. -/
theorem C1_reserve_atomic_check_decrement (st : St) (sku uid fresh : String)
    (n now : Int) :
    (n ≤ (st.inventory (inventoryKey sku)).getD 0 →
       reserveScript st (inventoryKey sku) n =
         (true, { st with inventory := (upd st.inventory (inventoryKey sku)
             (some ((st.inventory (inventoryKey sku)).getD 0 - n))) })) ∧
    ((st.inventory (inventoryKey sku)).getD 0 < n →
       reserveScript st (inventoryKey sku) n = (false, st)) ∧
    ((st.inventory (inventoryKey sku)).getD 0 < n →
       reserveInventory st sku n uid none now fresh false =
         (.error (.insufficient ((st.inventory (inventoryKey sku)).getD 0)), st,
          [.scriptRun])) := by
  refine ⟨fun h => by simp [reserveScript, h],
    fun h => by simp [reserveScript, not_le.mpr h],
    fun h => reserve_insufficient_eq st sku uid fresh n now none false
      (idemMiss_none st) h⟩

/-- Witness for C1 at a concrete state: 5 units available, 7 requested. -/
theorem C1_witness :
    (stA.inventory (inventoryKey "A")).getD 0 < 7 ∧
    reserveInventory stA "A" 7 "u" none 0 "x" false =
      (.error (.insufficient ((stA.inventory (inventoryKey "A")).getD 0)), stA,
       [.scriptRun]) :=
  ⟨by decide, (C1_reserve_atomic_check_decrement stA "A" "u" "x" 7 0).2.2 (by decide)⟩

/-- C6 counterexample: with 5 units of "A" in stock, a reserve of 2 whose
ledger write fails surfaces the error with the counter left at 3, not 5:
no compensating restore happens, contrary to the claim that a failed
reserve leaves the stock counter unchanged overall. -/
theorem C6_counterexample :
    (reserveInventory stA "A" 2 "u" none 100 "abc" true).1 =
      .error .ledgerWriteFailed ∧
    ((reserveInventory stA "A" 2 "u" none 100 "abc" true).2.1.inventory
        (inventoryKey "A")).getD 0 = 3 ∧
    ¬ ((reserveInventory stA "A" 2 "u" none 100 "abc" true).2.1.inventory
        (inventoryKey "A")).getD 0 = (stA.inventory (inventoryKey "A")).getD 0 :=
  ⟨rfl, by decide, by decide⟩

/-- C6 amended: when the stock decrement succeeds but the subsequent
ledger write fails, `reserve_inventory` surfaces the error with the stock
still decremented: the service performs no compensating restore (the
ledger write is not guarded by any exception handler). -/
theorem C6_ledger_failure_not_compensated (st : St) (sku uid fresh : String)
    (q now : Int) (idemKey : Option String) (hm : idemMiss st idemKey)
    (hle : q ≤ (st.inventory (inventoryKey sku)).getD 0) :
    reserveInventory st sku q uid idemKey now fresh true =
      (.error .ledgerWriteFailed,
       { st with inventory := (upd st.inventory (inventoryKey sku)
           (some ((st.inventory (inventoryKey sku)).getD 0 - q))) },
       [.scriptRun, .decremented]) :=
  reserve_ledgerFail_eq st sku uid fresh q now idemKey hm hle

/-- Witness for the amended C6 at a concrete state. -/
theorem C6_witness :
    2 ≤ (stA.inventory (inventoryKey "A")).getD 0 ∧
    reserveInventory stA "A" 2 "u" none 100 "abc" true =
      (.error .ledgerWriteFailed,
       { stA with inventory := (upd stA.inventory (inventoryKey "A")
           (some ((stA.inventory (inventoryKey "A")).getD 0 - 2))) },
       [.scriptRun, .decremented]) :=
  ⟨by decide,
   C6_ledger_failure_not_compensated stA "A" "u" "abc" 2 100 none
     (idemMiss_none stA) (by decide)⟩

/-- C7: `cancel_reservation` returns false and changes nothing when the
reservation is absent; fails with wrong-owner (no restore, no removal)
when the stored user differs; and when the owner matches it restores the
quantity to the SKU's counter and removes both the blob and the
expiry-index entry, returning true. -/
theorem C7_cancel_contract (st : St) (rid uid : String) :
    (st.reservations (reservationKey rid) = none →
       cancelReservation st rid uid = (.ok false, st)) ∧
    (∀ r, st.reservations (reservationKey rid) = some r → r.user_id ≠ uid →
       cancelReservation st rid uid = (.error .wrongOwner, st)) ∧
    (∀ r, st.reservations (reservationKey rid) = some r → r.user_id = uid →
       cancelReservation st rid uid =
         (.ok true,
          { st with
              inventory := (upd st.inventory (inventoryKey r.sku)
                (some ((st.inventory (inventoryKey r.sku)).getD 0 + r.quantity))),
              reservations := upd st.reservations (reservationKey rid) none,
              expiring := upd st.expiring rid none })) :=
  ⟨fun hb => cancel_gone_eq st rid uid hb,
   fun r hb howner => cancel_wrongOwner_eq st rid uid r hb howner,
   fun r hb howner => cancel_ok_eq st rid uid r hb howner⟩

/-- Witness for C7: the owner cancels the concrete reservation "r1". -/
theorem C7_witness :
    stB.reservations (reservationKey "r1") = some rA ∧
    rA.user_id = "u1" ∧
    cancelReservation stB "r1" "u1" =
      (.ok true,
       { stB with
           inventory := (upd stB.inventory (inventoryKey rA.sku)
             (some ((stB.inventory (inventoryKey rA.sku)).getD 0 + rA.quantity))),
           reservations := upd stB.reservations (reservationKey "r1") none,
           expiring := upd stB.expiring "r1" none }) :=
  ⟨rfl, rfl, (C7_cancel_contract stB "r1" "u1").2.2 rA rfl rfl⟩

/-- C10: a reserve carrying an idempotency key that fails with
insufficient inventory writes no idempotency record: the state is
returned unchanged, the key still misses the cache, and a retry with the
same key runs the stock-decrement script again (event `.scriptRun`, not
`.cacheHit`) instead of replaying a cached response. -/
theorem C10_failure_not_cached (st : St) (sku uid k fresh : String)
    (q now : Int) (lf : Bool) (_hk : k ≠ "")
    (hc : st.idempotency (idempotencyKey k) = none)
    (hlt : (st.inventory (inventoryKey sku)).getD 0 < q) :
    reserveInventory st sku q uid (some k) now fresh lf =
      (.error (.insufficient ((st.inventory (inventoryKey sku)).getD 0)), st,
       [.scriptRun]) ∧
    (reserveInventory st sku q uid (some k) now fresh lf).2.1.idempotency
        (idempotencyKey k) = none ∧
    (∀ now2 fresh2 lf2,
       reserveInventory (reserveInventory st sku q uid (some k) now fresh lf).2.1
           sku q uid (some k) now2 fresh2 lf2 =
         (.error (.insufficient ((st.inventory (inventoryKey sku)).getD 0)), st,
          [.scriptRun])) := by
  have hm : idemMiss st (some k) := idemMiss_some st hc
  have h1 := reserve_insufficient_eq st sku uid fresh q now (some k) lf hm hlt
  refine ⟨h1, ?_, ?_⟩
  · rw [h1]
    exact hc
  · intro now2 fresh2 lf2
    rw [h1]
    exact reserve_insufficient_eq st sku uid fresh2 q now2 (some k) lf2 hm hlt

/-- Witness for C10: key "K", 7 requested, 5 available. -/
theorem C10_witness :
    ("K" : String) ≠ "" ∧
    stA.idempotency (idempotencyKey "K") = none ∧
    (stA.inventory (inventoryKey "A")).getD 0 < 7 ∧
    reserveInventory stA "A" 7 "u" (some "K") 0 "x" false =
      (.error (.insufficient ((stA.inventory (inventoryKey "A")).getD 0)), stA,
       [.scriptRun]) :=
  ⟨by decide, rfl, by decide,
   (C10_failure_not_cached stA "A" "u" "K" "x" 7 0 false (by decide) rfl
     (by decide)).1⟩

/-- C3: a reserve that repeats the idempotency key of a prior successful
reserve (still cached) returns that call's reservation_id and expires_at
verbatim, changes no state at all (in particular performs zero
additional stock decrements), and does so from the cache check alone,
before any stock mutation (the only event is the cache hit). -/
theorem C3_idempotent_replay (st : St) (sku sku2 uid uid2 k fresh fresh2 : String)
    (q q2 now now2 : Int) (lf2 : Bool) (rid : String) (expAt : Int) (st1 : St)
    (evs : List Ev) (hk : k ≠ "")
    (hc : st.idempotency (idempotencyKey k) = none)
    (hfirst : reserveInventory st sku q uid (some k) now fresh false =
      (.ok (rid, expAt), st1, evs)) :
    reserveInventory st1 sku2 q2 uid2 (some k) now2 fresh2 lf2 =
      (.ok (rid, expAt), st1, [.cacheHit]) := by
  by_cases hle : q ≤ (st.inventory (inventoryKey sku)).getD 0
  · have hEq := (reserve_success_some_eq st sku uid k fresh q now hk hc hle).symm.trans
      hfirst
    simp only [Prod.mk.injEq, Except.ok.injEq] at hEq
    obtain ⟨⟨hrid, hexp⟩, hst, -⟩ := hEq
    have hcache : st1.idempotency (idempotencyKey k) =
        some { reservation_id := rid, sku := sku, quantity := q, expires_at := expAt } := by
      rw [← hst, hrid, hexp]
      exact upd_same _ _ _
    exact reserve_cacheHit_eq st1 sku2 uid2 k fresh2 q2 now2 lf2 _ hk hcache
  · have hfail := reserve_insufficient_eq st sku uid fresh q now (some k) false
      (idemMiss_some st hc) (not_le.mp hle)
    rw [hfail] at hfirst
    simp at hfirst

/-- Witness for C3: a concrete successful reserve followed by a replay
with the same key "K". -/
theorem C3_witness :
    ("K" : String) ≠ "" ∧
    stA.idempotency (idempotencyKey "K") = none ∧
    reserveInventory (reserveInventory stA "A" 2 "u" (some "K") 100 "abc" false).2.1
        "A" 2 "u" (some "K") 200 "zzz" false =
      (.ok ("rsv_abc", 400),
       (reserveInventory stA "A" 2 "u" (some "K") 100 "abc" false).2.1,
       [.cacheHit]) :=
  ⟨by decide, rfl,
   C3_idempotent_replay stA "A" "A" "u" "u" "K" "abc" "zzz" 2 2 100 200 false
     "rsv_abc" 400 _ _ (by decide) rfl rfl⟩

/-- C4: `confirm_reservation` never touches the stock counters; every
failure leaves the whole state unchanged; a missing ledger entry fails
with not-found; a reservation whose expiry score plus grace is below now
fails with an expired-kind error; a live unexpired reservation of another
user fails with wrong-owner; and the caller's own live unexpired
reservation is consumed atomically: both the blob and the index entry
are removed and the prior snapshot is returned. (A nonzero score is
assumed in the last two cases because the source's `if not expiry_score`
treats a 0.0 score as missing; scores written by reserve are expiry
timestamps and are never 0.) -/
theorem C4_confirm_contract (st : St) (rid uid : String) (grace now : Int) :
    ((confirmReservation st rid uid grace now).2).inventory = st.inventory ∧
    (∀ e, (confirmReservation st rid uid grace now).1 = .error e →
       (confirmReservation st rid uid grace now).2 = st) ∧
    (st.reservations (reservationKey rid) = none →
       confirmReservation st rid uid grace now = (.error .notFound, st)) ∧
    (∀ r score, st.reservations (reservationKey rid) = some r →
       st.expiring rid = some score → score + grace < now →
       ∃ e, confirmReservation st rid uid grace now = (.error e, st) ∧
         e.isExpiredKind = true) ∧
    (∀ r score, st.reservations (reservationKey rid) = some r →
       st.expiring rid = some score → score ≠ 0 → ¬ score + grace < now →
       r.user_id ≠ uid →
       confirmReservation st rid uid grace now = (.error .wrongOwner, st)) ∧
    (∀ r score, st.reservations (reservationKey rid) = some r →
       st.expiring rid = some score → score ≠ 0 → ¬ score + grace < now →
       r.user_id = uid →
       confirmReservation st rid uid grace now =
         (.ok r,
          { st with
              reservations := upd st.reservations (reservationKey rid) none,
              expiring := upd st.expiring rid none })) := by
  refine ⟨?_, confirm_error_frame st rid uid grace now, confirm_notFound_eq st rid uid grace now,
    ?_, confirm_wrongOwner_eq st rid uid grace now, confirm_success_eq st rid uid grace now⟩
  · cases hb : st.reservations (reservationKey rid) with
    | none => rw [confirm_notFound_eq st rid uid grace now hb]
    | some r =>
      cases hs : st.expiring rid with
      | none => rw [confirm_scoreMissing_eq st rid uid grace now r hb hs]
      | some score =>
        by_cases h0 : score = 0
        · rw [h0] at hs
          rw [confirm_scoreZero_eq st rid uid grace now r hb hs]
        · by_cases hexp : score + grace < now
          · rw [confirm_expired_eq st rid uid grace now r score hb hs h0 hexp]
          · by_cases howner : r.user_id = uid
            · rw [confirm_success_eq st rid uid grace now r score hb hs h0 hexp howner]
            · rw [confirm_wrongOwner_eq st rid uid grace now r score hb hs h0 hexp howner]
  · intro r score hb hs hexp
    by_cases h0 : score = 0
    · rw [h0] at hs
      exact ⟨.expiredOrInvalid, confirm_scoreZero_eq st rid uid grace now r hb hs, rfl⟩
    · exact ⟨.expired, confirm_expired_eq st rid uid grace now r score hb hs h0 hexp, rfl⟩

/-- Witness for C4: the owner confirms the concrete live reservation
"r1" (score 400, grace 5, now 300): both entries disappear and the
snapshot comes back. -/
theorem C4_witness :
    stB.reservations (reservationKey "r1") = some rA ∧
    stB.expiring "r1" = some 400 ∧
    (400 : Int) ≠ 0 ∧
    ¬ (400 : Int) + 5 < 300 ∧
    rA.user_id = "u1" ∧
    confirmReservation stB "r1" "u1" 5 300 =
      (.ok rA,
       { stB with
           reservations := upd stB.reservations (reservationKey "r1") none,
           expiring := upd stB.expiring "r1" none }) :=
  ⟨rfl, rfl, by decide, by decide, rfl,
   (C4_confirm_contract stB "r1" "u1" 5 300).2.2.2.2.2 rA 400 rfl rfl (by decide)
     (by decide) rfl⟩

/-- C8: when the fixed-window counter for (principal, reserve endpoint)
has reached the cap, the decorated reserve route rejects with
retry_after equal to the key's current TTL, falling back to the window
size when the TTL is non-positive, hence never zero (for a positive
window); the whole state is returned unchanged and no event fires: no
stock decrement, no ledger write, no idempotency access. -/
theorem C8_rate_limited_rejects (st : St) (uid sku fresh : String)
    (q now c maxReq window : Int) (idemKey : Option String) (lf : Bool)
    (hc : st.rate (rateLimitKey uid "/api/v1/inventory/reserve") = some c)
    (hcap : maxReq ≤ c) (hw : 0 < window) :
    reserveEndpoint st uid sku q idemKey now fresh lf maxReq window =
      (.error (.rateLimited
         (if 0 < st.rateTtl (rateLimitKey uid "/api/v1/inventory/reserve")
          then st.rateTtl (rateLimitKey uid "/api/v1/inventory/reserve")
          else window)), st, []) ∧
    0 < (if 0 < st.rateTtl (rateLimitKey uid "/api/v1/inventory/reserve")
         then st.rateTtl (rateLimitKey uid "/api/v1/inventory/reserve")
         else window) := by
  constructor
  · have hr : rateLimit st uid "/api/v1/inventory/reserve" maxReq window =
        (.rejected (if 0 < st.rateTtl (rateLimitKey uid "/api/v1/inventory/reserve")
          then st.rateTtl (rateLimitKey uid "/api/v1/inventory/reserve")
          else window), st) := by
      simp [rateLimit, hc, hcap]
    simp [reserveEndpoint, hr]
  · by_cases ht : 0 < st.rateTtl (rateLimitKey uid "/api/v1/inventory/reserve")
    · simp [ht]
    · simpa [ht] using hw

/-- Witness for C8: counter at the cap 10 with TTL 30 and window 60
rejects with retry_after 30 and touches nothing. -/
theorem C8_witness :
    stC.rate (rateLimitKey "u" "/api/v1/inventory/reserve") = some 10 ∧
    (10 : Int) ≤ 10 ∧ (0 : Int) < 60 ∧
    reserveEndpoint stC "u" "A" 1 none 100 "x" false 10 60 =
      (.error (.rateLimited
         (if 0 < stC.rateTtl (rateLimitKey "u" "/api/v1/inventory/reserve")
          then stC.rateTtl (rateLimitKey "u" "/api/v1/inventory/reserve")
          else 60)), stC, []) :=
  ⟨rfl, by decide, by decide,
   (C8_rate_limited_rejects stC "u" "A" "x" 1 100 10 10 60 none false rfl
     (by decide) (by decide)).1⟩

/-- C9: a confirm request whose reservation_id has no ledger entry
surfaces the 404 not-found response without touching the relational
store or the key-value store: no order row, no order_item row and no
audit row is created. -/
theorem C9_absent_confirm_no_db_write (st : St) (db : Db) (rid uid : String)
    (now : Int) (orderFresh : String)
    (hb : st.reservations (reservationKey rid) = none) :
    confirmCheckout st db rid uid now orderFresh = (.error .http404, st, db) := by
  have hcf := confirm_notFound_eq st rid uid 5 now hb
  simp [confirmCheckout, hb, hcf]

/-- Witness for C9: confirming the unknown reservation "zzz" against the
empty relational store leaves both stores untouched. -/
theorem C9_witness :
    stA.reservations (reservationKey "zzz") = none ∧
    confirmCheckout stA db0 "zzz" "u" 100 "o1" = (.error .http404, stA, db0) :=
  ⟨rfl, C9_absent_confirm_no_db_write stA db0 "zzz" "u" 100 "o1" rfl⟩

/-- The empty-string idempotency key always misses the cache (falsy). -/
theorem idemMiss_empty (st : St) : idemMiss st (some "") :=
  fun _ hk2 hne => absurd (Option.some.inj hk2).symm hne

/-- Updating one counter to a non-negative value keeps all counters
non-negative. -/
theorem getD_upd_nonneg {f : String → Option Int}
    (hf : ∀ k2, 0 ≤ (f k2).getD 0) {key : String} {v : Int} (hv : 0 ≤ v) :
    ∀ k2, 0 ≤ ((upd f key (some v)) k2).getD 0 := by
  intro k2
  by_cases hk : k2 = key
  · simpa [upd, hk] using hv
  · simpa [upd, hk] using hf k2

/-- Deleting a blob preserves non-negativity of all stored quantities. -/
theorem resv_upd_none {g : String → Option ReservationData}
    (hg : ∀ k2 r, g k2 = some r → 0 ≤ r.quantity) (key : String) :
    ∀ k2 r, (upd g key none) k2 = some r → 0 ≤ r.quantity := by
  intro k2 r hr
  by_cases hk : k2 = key
  · simp [upd, hk] at hr
  · rw [upd_other g none hk] at hr
    exact hg k2 r hr

/-- Inserting a blob with non-negative quantity preserves non-negativity
of all stored quantities. -/
theorem resv_upd_some {g : String → Option ReservationData}
    (hg : ∀ k2 r, g k2 = some r → 0 ≤ r.quantity) (key : String)
    {rnew : ReservationData} (hrnew : 0 ≤ rnew.quantity) :
    ∀ k2 r, (upd g key (some rnew)) k2 = some r → 0 ≤ r.quantity := by
  intro k2 r hr
  by_cases hk : k2 = key
  · simp [upd, hk] at hr
    rw [← hr]
    exact hrnew
  · rw [upd_other g (some rnew) hk] at hr
    exact hg k2 r hr

/-- C2 counterexample: `set_inventory` performs a raw `redis.set` of the
given quantity and the initialize route does not validate it, so setting
a negative quantity makes the available counter negative, falsifying the
claim that no exposed mutation produces a negative stock value. -/
theorem C2_counterexample :
    ¬ 0 ≤ ((setInventory stA "A" (-1)).inventory (inventoryKey "A")).getD 0 := by
  decide

/-- C2 amended: provided `set_inventory` is called only with non-negative
quantities and reserve quantities are non-negative (the reserve route's
schema enforces 1..5; the initialize route enforces nothing), every
exposed mutation (set_inventory, reserve, confirm, cancel, release)
preserves non-negativity of all stock counters. -/
theorem C2_nonneg_preserved (st : St) (sku rid uid uid2 uid3 fresh : String)
    (q now grace now2 : Int) (idemKey : Option String) (lf : Bool)
    (h : NonNeg st) :
    (0 ≤ q → NonNeg (setInventory st sku q)) ∧
    (0 ≤ q → NonNeg (reserveInventory st sku q uid idemKey now fresh lf).2.1) ∧
    NonNeg (confirmReservation st rid uid2 grace now2).2 ∧
    NonNeg (cancelReservation st rid uid3).2 ∧
    NonNeg (releaseReservation st rid).2 := by
  refine ⟨?_, ?_, ?_, ?_, ?_⟩
  · intro hq
    exact ⟨getD_upd_nonneg h.1 hq, h.2⟩
  · intro hq
    have core : idemMiss st idemKey → lf = true ∨ lf = false →
        (idemKey = none ∨ idemKey = some "" ∨
          (∃ k, idemKey = some k ∧ k ≠ "" ∧
            st.idempotency (idempotencyKey k) = none)) →
        NonNeg (reserveInventory st sku q uid idemKey now fresh lf).2.1 := by
      intro hm _ hcases
      by_cases hle : q ≤ (st.inventory (inventoryKey sku)).getD 0
      · cases lf with
        | true =>
          rw [reserve_ledgerFail_eq st sku uid fresh q now idemKey hm hle]
          exact ⟨getD_upd_nonneg h.1 (sub_nonneg.mpr hle), h.2⟩
        | false =>
          rcases hcases with hni | hni | ⟨k, hni, hkne, hknone⟩
          · subst hni
            rw [reserve_success_none_eq st sku uid fresh q now hle]
            exact ⟨getD_upd_nonneg h.1 (sub_nonneg.mpr hle),
              resv_upd_some h.2 _ hq⟩
          · subst hni
            rw [reserve_success_emptyKey_eq st sku uid fresh q now hle]
            exact ⟨getD_upd_nonneg h.1 (sub_nonneg.mpr hle),
              resv_upd_some h.2 _ hq⟩
          · subst hni
            rw [reserve_success_some_eq st sku uid k fresh q now hkne hknone hle]
            exact ⟨getD_upd_nonneg h.1 (sub_nonneg.mpr hle),
              resv_upd_some h.2 _ hq⟩
      · rw [reserve_insufficient_eq st sku uid fresh q now idemKey lf hm
          (not_le.mp hle)]
        exact h
    rcases idemKey with _ | k
    · exact core (idemMiss_none st) (Bool.dichotomy lf).symm (Or.inl rfl)
    · by_cases hk : k = ""
      · subst hk
        exact core (idemMiss_empty st) (Bool.dichotomy lf).symm (Or.inr (Or.inl rfl))
      · cases hcache : st.idempotency (idempotencyKey k) with
        | some rec0 =>
          rw [reserve_cacheHit_eq st sku uid k fresh q now lf rec0 hk hcache]
          exact h
        | none =>
          exact core (idemMiss_some st hcache) (Bool.dichotomy lf).symm
            (Or.inr (Or.inr ⟨k, rfl, hk, hcache⟩))
  · cases hb : st.reservations (reservationKey rid) with
    | none =>
      rw [confirm_notFound_eq st rid uid2 grace now2 hb]
      exact h
    | some r =>
      cases hs : st.expiring rid with
      | none =>
        rw [confirm_scoreMissing_eq st rid uid2 grace now2 r hb hs]
        exact h
      | some score =>
        by_cases h0 : score = 0
        · rw [h0] at hs
          rw [confirm_scoreZero_eq st rid uid2 grace now2 r hb hs]
          exact h
        · by_cases hexp : score + grace < now2
          · rw [confirm_expired_eq st rid uid2 grace now2 r score hb hs h0 hexp]
            exact h
          · by_cases howner : r.user_id = uid2
            · rw [confirm_success_eq st rid uid2 grace now2 r score hb hs h0 hexp
                howner]
              exact ⟨h.1, resv_upd_none h.2 _⟩
            · rw [confirm_wrongOwner_eq st rid uid2 grace now2 r score hb hs h0 hexp
                howner]
              exact h
  · cases hb : st.reservations (reservationKey rid) with
    | none =>
      rw [cancel_gone_eq st rid uid3 hb]
      exact h
    | some r =>
      by_cases howner : r.user_id = uid3
      · rw [cancel_ok_eq st rid uid3 r hb howner]
        exact ⟨getD_upd_nonneg h.1 (add_nonneg (h.1 _) (h.2 _ r hb)),
          resv_upd_none h.2 _⟩
      · rw [cancel_wrongOwner_eq st rid uid3 r hb howner]
        exact h
  · cases hb : st.reservations (reservationKey rid) with
    | none =>
      rw [release_gone_eq st rid hb]
      exact ⟨h.1, h.2⟩
    | some r =>
      rw [release_live_eq st rid r hb]
      exact ⟨getD_upd_nonneg h.1 (add_nonneg (h.1 _) (h.2 _ r hb)),
        resv_upd_none h.2 _⟩

/-- State `stA` satisfies the non-negativity invariant. -/
theorem nonNeg_stA : NonNeg stA := by
  constructor
  · intro key
    by_cases hk : key = "inventory:A"
    · simp [stA, hk]
    · simp [stA, hk]
  · intro key r hr
    simp [stA] at hr

/-- Witness for the amended C2 at a concrete state: a reserve of 2 out of
5 keeps all counters non-negative. -/
theorem C2_witness :
    NonNeg stA ∧ (0 : Int) ≤ 2 ∧
    NonNeg (reserveInventory stA "A" 2 "u" none 100 "x" false).2.1 :=
  ⟨nonNeg_stA, by decide,
   (C2_nonneg_preserved stA "A" "r" "u" "u" "u" "x" 2 100 5 100 none false
     nonNeg_stA).2.1 (by decide)⟩

/-- Unfolding equation for `runOps` on a cons. -/
theorem runOps_cons (st : St) (op : Op) (ops : List Op) :
    runOps st (op :: ops) =
      ((runOps (applyOp st op).1 ops).1,
       (applyOp st op).2 ++ (runOps (applyOp st op).1 ops).2) :=
  rfl

/-- Terminal-event counts add over concatenation. -/
theorem termCount_append (rid : String) (a b : List REv) :
    termCount rid (a ++ b) = termCount rid a + termCount rid b := by
  simp [termCount, List.filter_append]

/-- Per-operation accounting: one operation never creates a blob, emits
at most one terminal event for a given id, and emits one only by
removing that id's (previously present) blob. -/
theorem applyOp_spec (st : St) (op : Op) (rid : String) :
    (((applyOp st op).1).reservations (reservationKey rid) =
       st.reservations (reservationKey rid) ∨
     ((applyOp st op).1).reservations (reservationKey rid) = none) ∧
    termCount rid (applyOp st op).2 ≤ 1 ∧
    (termCount rid (applyOp st op).2 = 1 →
       st.reservations (reservationKey rid) ≠ none ∧
       ((applyOp st op).1).reservations (reservationKey rid) = none) := by
  have keyfact : ∀ rid2 : String, rid2 ≠ rid →
      ∀ (g : String → Option ReservationData),
        (upd g (reservationKey rid2) none) (reservationKey rid) =
          g (reservationKey rid) := by
    intro rid2 hne g
    refine upd_other g none ?_
    intro hkey
    exact hne (reservationKey_inj hkey).symm
  cases op with
  | confirm rid2 uid g n =>
    cases hb : st.reservations (reservationKey rid2) with
    | none =>
      have he := confirm_notFound_eq st rid2 uid g n hb
      simp [applyOp, he, termCount]
    | some r =>
      cases hs : st.expiring rid2 with
      | none =>
        have he := confirm_scoreMissing_eq st rid2 uid g n r hb hs
        simp [applyOp, he, termCount]
      | some score =>
        by_cases h0 : score = 0
        · rw [h0] at hs
          have he := confirm_scoreZero_eq st rid2 uid g n r hb hs
          simp [applyOp, he, termCount]
        · by_cases hexp : score + g < n
          · have he := confirm_expired_eq st rid2 uid g n r score hb hs h0 hexp
            simp [applyOp, he, termCount]
          · by_cases howner : r.user_id = uid
            · have he := confirm_success_eq st rid2 uid g n r score hb hs h0 hexp
                howner
              by_cases hr : rid2 = rid
              · subst hr
                refine ⟨Or.inr (by simp [applyOp, he, upd_same]), ?_, fun _ => ⟨by simp [hb], ?_⟩⟩
                · simp [applyOp, he, termCount, isTerminalFor]
                · show ((applyOp st (.confirm rid2 uid g n)).1).reservations
                    (reservationKey rid2) = none
                  simp [applyOp, he, upd_same]
              · have hres : ((applyOp st (.confirm rid2 uid g n)).1).reservations
                    (reservationKey rid) = st.reservations (reservationKey rid) := by
                  simp only [applyOp, he]
                  exact keyfact rid2 hr _
                refine ⟨Or.inl hres, ?_, ?_⟩
                · simp [applyOp, he, termCount, isTerminalFor, hr]
                · intro hcnt
                  exfalso
                  simp [applyOp, he, termCount, isTerminalFor, hr] at hcnt
            · have he := confirm_wrongOwner_eq st rid2 uid g n r score hb hs h0 hexp
                howner
              simp [applyOp, he, termCount]
  | cancel rid2 uid =>
    cases hb : st.reservations (reservationKey rid2) with
    | none =>
      have he := cancel_gone_eq st rid2 uid hb
      simp [applyOp, he, termCount]
    | some r =>
      by_cases howner : r.user_id = uid
      · have he := cancel_ok_eq st rid2 uid r hb howner
        by_cases hr : rid2 = rid
        · subst hr
          refine ⟨Or.inr (by simp [applyOp, he, upd_same]), ?_, fun _ => ⟨by simp [hb], ?_⟩⟩
          · simp [applyOp, he, termCount, isTerminalFor]
          · show ((applyOp st (.cancel rid2 uid)).1).reservations
              (reservationKey rid2) = none
            simp [applyOp, he, upd_same]
        · have hres : ((applyOp st (.cancel rid2 uid)).1).reservations
              (reservationKey rid) = st.reservations (reservationKey rid) := by
            simp only [applyOp, he]
            exact keyfact rid2 hr _
          refine ⟨Or.inl hres, ?_, ?_⟩
          · simp [applyOp, he, termCount, isTerminalFor, hr]
          · intro hcnt
            exfalso
            simp [applyOp, he, termCount, isTerminalFor, hr] at hcnt
      · have he := cancel_wrongOwner_eq st rid2 uid r hb howner
        simp [applyOp, he, termCount]
  | release rid2 =>
    cases hb : st.reservations (reservationKey rid2) with
    | none =>
      have he := release_gone_eq st rid2 hb
      simp [applyOp, he, termCount]
    | some r =>
      have he := release_live_eq st rid2 r hb
      by_cases hr : rid2 = rid
      · subst hr
        refine ⟨Or.inr (by simp [applyOp, he, upd_same]), ?_, fun _ => ⟨by simp [hb], ?_⟩⟩
        · simp [applyOp, he, termCount, isTerminalFor]
        · show ((applyOp st (.release rid2)).1).reservations
            (reservationKey rid2) = none
          simp [applyOp, he, upd_same]
      · have hres : ((applyOp st (.release rid2)).1).reservations
            (reservationKey rid) = st.reservations (reservationKey rid) := by
          simp only [applyOp, he]
          exact keyfact rid2 hr _
        refine ⟨Or.inl hres, ?_, ?_⟩
        · simp [applyOp, he, termCount, isTerminalFor, hr]
        · intro hcnt
          exfalso
          simp [applyOp, he, termCount, isTerminalFor, hr] at hcnt

/-- A reservation whose blob is already gone yields no further terminal
event across any subsequent sequence of operations, and stays gone. -/
theorem runOps_none_zero (ops : List Op) :
    ∀ st rid, st.reservations (reservationKey rid) = none →
      termCount rid (runOps st ops).2 = 0 ∧
      ((runOps st ops).1).reservations (reservationKey rid) = none := by
  induction ops with
  | nil =>
    intro st rid h
    exact ⟨rfl, h⟩
  | cons op ops ih =>
    intro st rid h
    obtain ⟨hdisj, hle, hone⟩ := applyOp_spec st op rid
    have h1 : ((applyOp st op).1).reservations (reservationKey rid) = none := by
      rcases hdisj with hd | hd
      · rw [hd]; exact h
      · exact hd
    have hcnt1 : termCount rid (applyOp st op).2 = 0 := by
      by_cases hc : termCount rid (applyOp st op).2 = 1
      · exact absurd h (hone hc).1
      · omega
    obtain ⟨ht, hres⟩ := ih (applyOp st op).1 rid h1
    rw [runOps_cons]
    refine ⟨?_, hres⟩
    rw [termCount_append, hcnt1, ht]

/-- C5: across any sequence of confirm, cancel and release operations
(the sweeper releases through the same `release_reservation` path), a
given reservation id produces at most one terminal event: it is consumed
by confirm, or released with its stock restored, at most once in total,
and otherwise remains live. -/
theorem C5_terminal_at_most_once (st : St) (ops : List Op) (rid : String) :
    termCount rid (runOps st ops).2 ≤ 1 := by
  induction ops generalizing st with
  | nil => simp [runOps, termCount]
  | cons op ops ih =>
    rw [runOps_cons, termCount_append]
    obtain ⟨hdisj, hle, hone⟩ := applyOp_spec st op rid
    by_cases h1 : termCount rid (applyOp st op).2 = 1
    · have hnone := (hone h1).2
      have hz := (runOps_none_zero ops (applyOp st op).1 rid hnone).1
      omega
    · have hrest := ih (applyOp st op).1
      omega

end FlexyPe
